import Mathlib

/-!
Shallow embedding of the identity-resolution and change-detection core of the
`isengard2` incremental build tool (files `src/isengard2/_db.py` and
`src/isengard2/_target.py`), together with theorems settling the frozen claims
about it.

Modelling conventions:
* Python byte strings are `List Nat` (`Bytes`).
* Python exceptions are the explicit error type `PyErr`; a Python function that
  may raise is embedded as a function into `Except PyErr _`.
* The SQLite layer used by `_db.py` is embedded only as far as the documented
  semantics that the code exercises: lazy `connect`, the error-class mapping
  (`no such table`/`no such column` are `OperationalError`; `file is not a
  database` on a non-SQLite file is `DatabaseError`, which is *not* an
  `OperationalError`), `fetchone` returning `None` on an empty result set, and
  the documented SQLite UPSERT rule that the `ON CONFLICT(col)` target must
  match a `UNIQUE`/`PRIMARY KEY` constraint of the table, otherwise preparing
  the statement fails with an `OperationalError`.
* `hashlib.sha256(...).digest()` is an abstract 32-byte digest function
  (`HashFn`); only its determinism and digest length are relied upon.
* `pickle` is modelled as an injective executable serialization of a small
  universe of Python values (`PyValue`) with a decoder; only round-tripping
  and failure-on-garbage are relied upon.
-/

set_option autoImplicit false

deriving instance DecidableEq for Except

namespace Isengard

/-- Python `bytes` values, one `Nat` per byte. -/
abbrev Bytes := List Nat

/-- The Python exceptions that the embedded code can raise or catch. -/
inductive PyErr where
  /-- `sqlite3.OperationalError` (e.g. `no such table`, bad UPSERT target). -/
  | operationalError
  /-- `sqlite3.DatabaseError` that is not operational (e.g. `file is not a database`). -/
  | databaseError
  /-- `sqlite3.IntegrityError` (e.g. NOT NULL constraint failed). -/
  | integrityError
  /-- Python `TypeError`. -/
  | typeError
  /-- Python `ValueError`. -/
  | valueError
  /-- Python `AttributeError`. -/
  | attributeError
  /-- Python `IndexError`. -/
  | indexError
  /-- Python `KeyError` carrying the missing key. -/
  | keyError (key : String)
  /-- `IsengardDBError` from `_exceptions.py`. -/
  | isengardDBError
  /-- `IsengardDefinitionError`, carrying the missing configuration key it names. -/
  | isengardDefinitionError (missingKey : String)
  /-- `IsengardConsistencyError` from `_exceptions.py`. -/
  | isengardConsistencyError
  /-- `IsengardRunError`, carrying its message. -/
  | isengardRunError (msg : String)
deriving DecidableEq, Repr

/-! ## The fingerprint store (`_db.py`) -/

/-- `DB_VERSION = 1` in `_db.py`. -/
def DB_VERSION : Int := 1

/-- `VERSION_MAGIC_NUMBER = 76388` in `_db.py`. -/
def VERSION_MAGIC_NUMBER : Int := 76388

/-- One column of a table schema: its name, whether it is `NOT NULL`, whether it
has a `DEFAULT`, and whether it carries a single-column uniqueness constraint
(`PRIMARY KEY` or `UNIQUE`). -/
structure Column where
  name : String
  notNull : Bool
  hasDefault : Bool
  unique : Bool
deriving DecidableEq, Repr

/-- The `targets` table schema exactly as declared by `SQL_CREATE_TARGETS_TABLE`:
`_id SERIAL PRIMARY KEY, id text NOT NULL, rule rule NOT NULL,
fingerprint BLOB NOT NULL`.  Note the uniqueness constraint is on `_id` only;
`id` has no `UNIQUE` constraint, and `rule` is `NOT NULL` with no default. -/
def targetsSchema : List Column :=
  [ ⟨"_id", false, false, true⟩
  , ⟨"id", true, false, false⟩
  , ⟨"rule", true, false, false⟩
  , ⟨"fingerprint", true, false, false⟩ ]

/-- The state of a valid SQLite database file used by `_db.py`: which tables
exist, the rows of the `version` table as `(magic, value)` pairs, and the rows
of the `targets` table as `(id, fingerprint)` pairs. -/
structure Database where
  hasVersionTable : Bool
  versionRows : List (Int × Int)
  hasTargetsTable : Bool
  targetsRows : List (String × Bytes)
deriving DecidableEq, Repr

/-- The on-disk situation at the store path handed to `init_or_reset_db`. -/
inductive DbFile where
  /-- No file at the path: `sqlite3.connect` creates an empty database. -/
  | absent
  /-- A file that is not an SQLite database: `connect` succeeds lazily, and the
  first executed statement raises `sqlite3.DatabaseError` (`file is not a
  database`, SQLITE_NOTADB — not an `OperationalError`). -/
  | corrupt
  /-- A valid SQLite database file with the given contents. -/
  | stored (d : Database)
deriving DecidableEq, Repr

/-- The connection state right after `sqlite3_connect`: either a usable
database (an absent file becomes an empty database with no tables) or a
connection onto a corrupt file whose statements will fail. -/
inductive Conn where
  | corruptConn
  | dbConn (d : Database)
deriving DecidableEq, Repr

/-- `sqlite3.connect(path)`: lazy, so it succeeds on absent and corrupt files
alike; an absent file yields a fresh empty database with no tables. -/
def sqliteConnect : DbFile → Conn
  | .absent => .dbConn ⟨false, [], false, []⟩
  | .corrupt => .corruptConn
  | .stored d => .dbConn d

/-- Executing `SQL_FETCH_VERSION_ROW`
(`SELECT value FROM version WHERE magic = 76388`) followed by `fetchone()`:
raises `DatabaseError` on a corrupt file, `OperationalError` when the
`version` table is absent, and otherwise returns the first matching row's
`value` (or `none` when no row has the magic, which is what `fetchone` gives). -/
def execFetchVersionRow : Conn → Except PyErr (Option Int)
  | .corruptConn => .error .databaseError
  | .dbConn d =>
    if d.hasVersionTable then
      .ok ((d.versionRows.find? (fun r => r.1 = VERSION_MAGIC_NUMBER)).map (·.2))
    else
      .error .operationalError

/-- The empty store that the reset path of `init_or_reset_db` creates: the
`version` and `targets` tables exist, the version row is
`(VERSION_MAGIC_NUMBER, DB_VERSION)`, and there are no target rows. -/
def freshDatabase : Database :=
  ⟨true, [(VERSION_MAGIC_NUMBER, DB_VERSION)], true, []⟩

/-- `init_or_reset_db` from `_db.py`, embedded step by step:
open the file, optimistically read the version row catching *only*
`OperationalError` (mapped to version `-1`), unpack the fetched row (a `None`
row raises `TypeError`, uncaught), and on a version mismatch delete the file
and recreate the fresh empty store.  Any exception other than
`OperationalError` raised by the version read propagates. -/
def init_or_reset_db (f : DbFile) : Except PyErr Database := do
  let con := sqliteConnect f
  let currentDbVersion : Int ←
    match execFetchVersionRow con with
    | .error .operationalError => pure (-1)
    | .error e => .error e
    | .ok none => .error .typeError
    | .ok (some v) => pure v
  if currentDbVersion ≠ DB_VERSION then
    pure freshDatabase
  else
    match con with
    | .dbConn d => pure d
    | .corruptConn => .error .databaseError

/-- `DB.fetch_previous_fingerprint`: execute `SQL_FETCH_TARGET` and return the
fingerprint of the first row whose `id` matches, or `None`. -/
def fetch_previous_fingerprint (d : Database) (target : String) : Option Bytes :=
  (d.targetsRows.find? (fun r => r.1 = target)).map (·.2)

/-- Preparing
`INSERT INTO targets(id, fingerprint) VALUES(?, ?) ON CONFLICT(id) DO UPDATE ...`:
per the documented SQLite UPSERT rule, the conflict target column must carry a
`PRIMARY KEY`/`UNIQUE` constraint of the table, else preparation fails with
`OperationalError` (`ON CONFLICT clause does not match any PRIMARY KEY or
UNIQUE constraint`). -/
def upsertPrepareOk (schema : List Column) (conflictCol : String) : Bool :=
  schema.any (fun c => c.name = conflictCol && c.unique)

/-- Inserting a row that supplies only the columns in `provided`: every other
column that is `NOT NULL` without a `DEFAULT` makes the insert fail with
`IntegrityError`. -/
def insertNotNullOk (schema : List Column) (provided : List String) : Bool :=
  schema.all (fun c => provided.contains c.name || !c.notNull || c.hasDefault)

/-- `DB.set_fingerprint`: execute `SQL_SET_TARGET` against the `targets` table
as declared by `SQL_CREATE_TARGETS_TABLE`.  Preparation checks the UPSERT
conflict target, then the insert (or conflict-update) runs under the schema's
constraints. -/
def set_fingerprint (d : Database) (target : String) (fingerprint : Bytes) :
    Except PyErr Database :=
  if !d.hasTargetsTable then .error .operationalError
  else if !upsertPrepareOk targetsSchema "id" then .error .operationalError
  else if (d.targetsRows.find? (fun r => r.1 = target)).isSome then
    .ok ⟨d.hasVersionTable, d.versionRows, d.hasTargetsTable,
      d.targetsRows.map (fun r => if r.1 = target then (r.1, fingerprint) else r)⟩
  else if !insertNotNullOk targetsSchema ["id", "fingerprint"] then
    .error .integrityError
  else
    .ok ⟨d.hasVersionTable, d.versionRows, d.hasTargetsTable,
      d.targetsRows ++ [(target, fingerprint)]⟩

/-! ## Target identity resolution (`_target.py`) -/

/-- Configuration mapping, as an association list (Python `Dict[str, ConstTypes]`;
the claims exercise string values, which `str.format` substitutes verbatim). -/
abbrev Config := List (String × String)

/-- Lookup in a configuration mapping. -/
def cfgLookup (cfg : Config) (k : String) : Option String :=
  (cfg.find? (fun p => p.1 = k)).map (·.2)

/-- Python `str.format(**config)` on the named-placeholder subset that target
identities use: `\x7bname\x7d` is substituted from the mapping (`KeyError` on
a missing name), `\x7b\x7b`/`\x7d\x7d` are escapes, a lone closing brace or an
unterminated placeholder raises `ValueError`.  Structured with explicit fuel
so that it is structurally recursive (and hence kernel-computable); every step
consumes at least one input character, so fuel equal to the input length is
always enough and the fuel-exhausted branch is unreachable from `pyFormat`. -/
def pyFormatF (cfg : Config) : Nat → List Char → Except PyErr (List Char)
  | _, [] => .ok []
  | 0, _ :: _ => .error .valueError
  | fuel + 1, c :: rest =>
    if c = '{' then
      match rest with
      | [] => .error .valueError
      | c2 :: rest2 =>
        if c2 = '{' then (fun t => '{' :: t) <$> pyFormatF cfg fuel rest2
        else
          let nameChars := rest.takeWhile (fun x => x ≠ '}')
          match rest.dropWhile (fun x => x ≠ '}') with
          | [] => .error .valueError
          | _ :: rest3 =>
            match cfgLookup cfg (String.mk nameChars) with
            | none => .error (.keyError (String.mk nameChars))
            | some v => (fun t => v.data ++ t) <$> pyFormatF cfg fuel rest3
    else if c = '}' then
      match rest with
      | [] => .error .valueError
      | c2 :: rest2 =>
        if c2 = '}' then (fun t => '}' :: t) <$> pyFormatF cfg fuel rest2
        else .error .valueError
    else
      (fun t => c :: t) <$> pyFormatF cfg fuel rest

/-- `str.format` on a character list, with enough fuel for the whole input. -/
def pyFormat (cfg : Config) (l : List Char) : Except PyErr (List Char) :=
  pyFormatF cfg l.length l

/-- `BaseTargetHandler.resolve`: substitute placeholders, turning a `KeyError`
into an `IsengardDefinitionError` naming the missing key. -/
def baseResolve (id : String) (cfg : Config) : Except PyErr String :=
  match pyFormat cfg id.data with
  | .ok cs => .ok (String.mk cs)
  | .error (.keyError k) => .error (.isengardDefinitionError k)
  | .error e => .error e

/-- String suffix test on the character level (Python `str.endswith`). -/
def strEndsWith (s suffix : String) : Bool :=
  suffix.data.isSuffixOf s.data

/-- `PurePosixPath(s).is_absolute()` for the POSIX paths this core manipulates. -/
def isAbsolute (s : String) : Bool :=
  match s.data with
  | '/' :: _ => true
  | _ => false

/-- `(workdir / resolved).as_posix()` for a non-degenerate POSIX `workdir` and
a relative `resolved`, on the clean path strings target resolution produces:
join with a single separator (pathlib returns `resolved` unchanged for an
empty or `"."` workdir). -/
def posixJoin (workdir resolved : String) : String :=
  if workdir = "" || workdir = "." then resolved
  else if strEndsWith workdir "/" then workdir ++ resolved
  else workdir ++ "/" ++ resolved

/-- `PurePosixPath.as_posix()` drops a trailing slash (except for the root
path itself); `FolderTargetHandler.resolve` re-appends it after the join. -/
def dropTrailingSlash (s : String) : String :=
  if s ≠ "/" && strEndsWith s "/" then String.mk s.data.dropLast else s

/-- `FileTargetHandler.resolve`: substitute, then if the result is non-empty
and not absolute, join it under the workdir. -/
def fileResolve (id : String) (cfg : Config) (workdir : String) :
    Except PyErr String := do
  let resolved ← baseResolve id cfg
  if resolved ≠ "" then
    if !isAbsolute resolved then
      pure (posixJoin workdir resolved)
    else
      pure resolved
  else
    pure resolved

/-- `FolderTargetHandler.resolve`: like the file variant, but the trailing
`/` discriminant that `as_posix()` drops is appended back after the join. -/
def folderResolve (id : String) (cfg : Config) (workdir : String) :
    Except PyErr String := do
  let resolved ← baseResolve id cfg
  if resolved ≠ "" then
    if !isAbsolute resolved then
      pure (dropTrailingSlash (posixJoin workdir resolved) ++ "/")
    else
      pure resolved
  else
    pure resolved

/-! ## Fingerprinting (`_target.py`: File / Folder / Virtual handlers) -/

/-- The result fields of `os.stat` that the fingerprint code reads.  `st_mtime`
is a float in Python; only its equality matters here, so it is embedded as a
`Nat` alongside the integer fields. -/
structure Stats where
  mtime : Nat
  size : Nat
  ino : Nat
  mode : Nat
  uid : Nat
  gid : Nat
deriving DecidableEq, Repr

/-- `stat.S_ISDIR(mode)`: the file-type bits (octal `170000`) equal octal
`040000`. -/
def sISDIR (mode : Nat) : Bool :=
  mode &&& 61440 = 16384

/-- An 8-byte little-endian rendering of a `Nat` (the fixed-width fields of
`struct.pack "=dQQQQQ"`; the claims rely only on equal stats packing equally
and on the encoding being a function of the stats). -/
def natToBytes8 (n : Nat) : Bytes :=
  [n % 256, n / 256 % 256, n / 256 ^ 2 % 256, n / 256 ^ 3 % 256,
   n / 256 ^ 4 % 256, n / 256 ^ 5 % 256, n / 256 ^ 6 % 256, n / 256 ^ 7 % 256]

/-- `struct.pack("=dQQQQQ", st_mtime, st_size, st_ino, st_mode, st_uid, st_gid)`. -/
def packStats (st : Stats) : Bytes :=
  natToBytes8 st.mtime ++ natToBytes8 st.size ++ natToBytes8 st.ino ++
    natToBytes8 st.mode ++ natToBytes8 st.uid ++ natToBytes8 st.gid

/-- `hashlib.sha256(...).digest()`, abstract except for its 32-byte digest
length. -/
structure HashFn where
  digest : Bytes → Bytes
  len32 : ∀ b, (digest b).length = 32

/-- What the filesystem holds at a given path, as far as `os.stat` and
`open(..., "rb").read()` observe it: either an entry with stats (a directory
when `S_ISDIR` holds on its mode) and readable content, or a path where the
access raises an `OSError` (missing file, permission failure, ...). -/
inductive FsNode where
  | entry (st : Stats) (content : Bytes)
  | fsError
deriving DecidableEq, Repr

/-- A snapshot of the filesystem: what each path holds. -/
abbrev Fs := String → FsNode

/-- The `fingerprint_strategy` of `FileTargetHandler`. -/
inductive Strategy where
  | stat
  | statChecksum
deriving DecidableEq, Repr

/-- `FileTargetHandler.compute_fingerprint`: 64-byte buffer, first 32 bytes the
digest of the packed stats, last 32 bytes the content digest under
`stat+checksum` and untouched zeros under `stat`; `None` when the path is a
directory or any `OSError` occurs. -/
def fileComputeFingerprint (H : HashFn) (strategy : Strategy) (fs : Fs)
    (cooked : String) : Option Bytes :=
  match fs cooked with
  | .fsError => none
  | .entry st content =>
    if sISDIR st.mode then none
    else
      let base := H.digest (packStats st) ++ List.replicate 32 0
      if strategy = .statChecksum then
        some (base.take 32 ++ H.digest content)
      else
        some base

/-- `FileTargetHandler.need_rebuild` on a byte-string previous fingerprint.
The Python return value is `True`, `False` — or `None` on the directory
branch (`return None`, mirrored here as `none`); `some b` embeds a genuine
boolean return. -/
def fileNeedRebuild (H : HashFn) (strategy : Strategy) (fs : Fs)
    (cooked : String) (previous_fingerprint : Bytes) : Option Bool :=
  match fs cooked with
  | .fsError => some true
  | .entry st content =>
    if sISDIR st.mode then none
    else if previous_fingerprint.take 32 ≠ H.digest (packStats st) then some true
    else if strategy = .statChecksum &&
        previous_fingerprint.drop 32 ≠ H.digest content then some true
    else some false

/-- `FolderTargetHandler.compute_fingerprint`: digest of the packed stats when
the path is a directory, `None` otherwise (including on `OSError`). -/
def folderComputeFingerprint (H : HashFn) (fs : Fs) (cooked : String) :
    Option Bytes :=
  match fs cooked with
  | .fsError => none
  | .entry st _ =>
    if sISDIR st.mode then some (H.digest (packStats st)) else none

/-- `BaseTargetHandler.need_rebuild` as inherited by `FolderTargetHandler`:
recompute the fingerprint and compare for inequality (Python `!=` between an
`Optional[bytes]` result and the stored bytes). -/
def folderNeedRebuild (H : HashFn) (fs : Fs) (cooked : String)
    (previous_fingerprint : Bytes) : Bool :=
  folderComputeFingerprint H fs cooked ≠ some previous_fingerprint

/-- `VirtualTargetHandler.compute_fingerprint`: always `None`. -/
def virtualComputeFingerprint : Option Bytes := none

/-- `VirtualTargetHandler.need_rebuild`: always `True`. -/
def virtualNeedRebuild : Bool := true

/-! ## Handler registry (`TargetHandlersBundle`) -/

/-- A registered target handler as the bundle constructor sees it: its
`DISCRIMINANT_SUFFIX` plus a tag standing for Python object identity (`is`,
and default `__eq__`, compare object identity; distinct handler objects get
distinct tags). -/
structure RegHandler where
  tag : Nat
  suffix : String
deriving DecidableEq, Repr

/-- The loop body of `TargetHandlersBundle.__init__`: for each handler with a
truthy (non-empty) suffix, search the whole handler list for a *different*
handler whose suffix ends with this handler's suffix; any hit raises
`IsengardConsistencyError`, otherwise the suffix is mapped to the handler. -/
def bundleLoop (all : List RegHandler) :
    List RegHandler → Except PyErr (List (String × RegHandler))
  | [] => .ok []
  | h :: rest =>
    if h.suffix = "" then bundleLoop all rest
    else
      match all.find? (fun g => strEndsWith g.suffix h.suffix && g ≠ h) with
      | some _ => .error .isengardConsistencyError
      | none => (fun m => (h.suffix, h) :: m) <$> bundleLoop all rest

/-- `TargetHandlersBundle.__init__`: first the default-handler membership
check — which raises a plain `ValueError`, not an Isengard error — then the
suffix-ambiguity scan building `handler_per_suffix`. -/
def bundleInit (target_handlers : List RegHandler)
    (default_target_handler : Option RegHandler) :
    Except PyErr (List (String × RegHandler)) :=
  match default_target_handler with
  | some d =>
    if !target_handlers.contains d then .error .valueError
    else bundleLoop target_handlers target_handlers
  | none => bundleLoop target_handlers target_handlers

/-! ## Python values and the pickle model (deferred targets) -/

/-- Reference to a concrete non-deferred handler object, as storable inside a
deferred target's fingerprint triple. -/
inductive HandlerRef where
  | file (strategy : Strategy)
  | folder
  | virtual
deriving DecidableEq, Repr

/-- The Python classes that occur as a handler's `TARGET_TYPE`. -/
inductive PyType where
  | tPath
  | tStr
deriving DecidableEq, Repr

/-- The `TARGET_TYPE` of each handler kind (`Path` for file/folder, `str` for
virtual). -/
def HandlerRef.targetType : HandlerRef → PyType
  | .file _ => .tPath
  | .folder => .tPath
  | .virtual => .tStr

/-- Printable name of a target type for error messages. -/
def pyTypeName : PyType → String
  | .tPath => "Path"
  | .tStr => "str"

/-- The universe of Python values the deferred-target code can meet when
deserializing a stored fingerprint. -/
inductive PyValue where
  | vNone
  | vInt (n : Int)
  | vStr (s : String)
  | vBytes (b : Bytes)
  | vPath (s : String)
  | vHandler (h : HandlerRef)
  | vTuple (xs : List PyValue)

/-- Python truthiness of a `PyValue`. -/
def truthy : PyValue → Bool
  | .vNone => false
  | .vInt n => n != 0
  | .vStr s => s != ""
  | .vBytes [] => false
  | .vBytes (_ :: _) => true
  | .vPath _ => true
  | .vHandler _ => true
  | .vTuple [] => false
  | .vTuple (_ :: _) => true

/-- `isinstance(value, targetType)`. -/
def typeMatches : PyValue → PyType → Bool
  | .vPath _, .tPath => true
  | .vStr _, .tStr => true
  | _, _ => false

/-- Self-delimiting encoding of a `Nat` (unary run of `1`s closed by `0`). -/
def encNat (n : Nat) : Bytes :=
  List.replicate n 1 ++ [0]

/-- Decoder for `encNat`. -/
def decNat : Bytes → Option (Nat × Bytes)
  | 0 :: r => some (0, r)
  | 1 :: r => (decNat r).map (fun p => (p.1 + 1, p.2))
  | _ => none

/-- Length-prefixed encoding of a byte string. -/
def encBytes (b : Bytes) : Bytes :=
  encNat b.length ++ b

/-- Decoder for `encBytes`. -/
def decBytes (l : Bytes) : Option (Bytes × Bytes) :=
  match decNat l with
  | none => none
  | some (n, r) => if n ≤ r.length then some (r.take n, r.drop n) else none

/-- Length-prefixed encoding of a string via its character codes. -/
def encStr (s : String) : Bytes :=
  encBytes (s.data.map Char.toNat)

/-- Decoder for `encStr`. -/
def decStr (l : Bytes) : Option (String × Bytes) :=
  match decBytes l with
  | none => none
  | some (cs, r) => some (String.mk (cs.map Char.ofNat), r)

/-- Sign-tagged encoding of an `Int`. -/
def encInt : Int → Bytes
  | .ofNat m => 0 :: encNat m
  | .negSucc m => 1 :: encNat m

/-- Decoder for `encInt`. -/
def decInt : Bytes → Option (Int × Bytes)
  | 0 :: r => (decNat r).map (fun p => (Int.ofNat p.1, p.2))
  | 1 :: r => (decNat r).map (fun p => (Int.negSucc p.1, p.2))
  | _ => none

/-- Encoding of a handler reference. -/
def encHandler : HandlerRef → Bytes
  | .file .stat => [0]
  | .file .statChecksum => [1]
  | .folder => [2]
  | .virtual => [3]

/-- Decoder for `encHandler`. -/
def decHandler : Bytes → Option (HandlerRef × Bytes)
  | 0 :: r => some (.file .stat, r)
  | 1 :: r => some (.file .statChecksum, r)
  | 2 :: r => some (.folder, r)
  | 3 :: r => some (.virtual, r)
  | _ => none

/-- Tagged encoding of a non-tuple `PyValue`.  The program only ever pickles
flat tuples of such scalars, so a nested tuple gets a deliberately
undecodable tag. -/
def encodeScalar : PyValue → Bytes
  | .vNone => [0]
  | .vInt n => 1 :: encInt n
  | .vStr s => 2 :: encStr s
  | .vBytes b => 3 :: encBytes b
  | .vPath s => 4 :: encStr s
  | .vHandler h => 5 :: encHandler h
  | .vTuple _ => [9]

/-- Decoder for `encodeScalar`. -/
def decodeScalar : Bytes → Option (PyValue × Bytes)
  | 0 :: r => some (.vNone, r)
  | 1 :: r => (decInt r).map (fun p => (.vInt p.1, p.2))
  | 2 :: r => (decStr r).map (fun p => (.vStr p.1, p.2))
  | 3 :: r => (decBytes r).map (fun p => (.vBytes p.1, p.2))
  | 4 :: r => (decStr r).map (fun p => (.vPath p.1, p.2))
  | 5 :: r => (decHandler r).map (fun p => (.vHandler p.1, p.2))
  | _ => none

/-- Decode a fixed number of scalars in sequence. -/
def decodeScalars : Nat → Bytes → Option (List PyValue × Bytes)
  | 0, r => some ([], r)
  | n + 1, r =>
    match decodeScalar r with
    | none => none
    | some (v, r2) => (decodeScalars n r2).map (fun p => (v :: p.1, p.2))

/-- `pickle.dumps` on the value shapes the program serializes: a flat tuple of
scalars, or a single scalar. -/
def pickleDumps : PyValue → Bytes
  | .vTuple xs => 6 :: (encNat xs.length ++ (xs.map encodeScalar).flatten)
  | v => encodeScalar v

/-- `pickle.loads`, totalized: byte strings that fail to decode (or leave
trailing garbage) give `none`, standing for the deserialization exception. -/
def pickleLoads : Bytes → Option PyValue
  | 6 :: r =>
    match decNat r with
    | none => none
    | some (n, r2) =>
      match decodeScalars n r2 with
      | none => none
      | some (xs, rest) => if rest = [] then some (.vTuple xs) else none
  | b =>
    match decodeScalar b with
    | none => none
    | some (v, rest) => if rest = [] then some v else none

/-! ## Deferred targets -/

/-- `DeferredTarget`: an identity plus the optional `_resolved` binding
(`none` is the unbound state in which the `_resolved` attribute is absent). -/
structure DeferredTarget where
  id : String
  resolved : Option (PyValue × HandlerRef)

/-- `DeferredTarget.resolve`: reject a value that is not an instance of the
handler's `TARGET_TYPE`, then reject an already-bound target, else bind.
Raising means the stored binding is untouched (the embedding returns the
updated target only on success). -/
def DeferredTarget.resolve (t : DeferredTarget) (target : PyValue)
    (handler : HandlerRef) : Except PyErr DeferredTarget :=
  if !typeMatches target handler.targetType then
    .error (.isengardRunError
      ("Incorrect type for target, handler expects " ++ pyTypeName handler.targetType))
  else if t.resolved.isSome then
    .error (.isengardRunError "Target already resolved !")
  else
    .ok ⟨t.id, some (target, handler)⟩

/-- The cooked value a bound handler fingerprints: file/folder bindings hold a
`Path`, virtual bindings a `str`; `DeferredTarget.resolve` guarantees the
match, so other shapes are unreachable and mapped to a junk path. -/
def pathOf : PyValue → String
  | .vPath s => s
  | .vStr s => s
  | _ => ""

/-- Dispatch of `compute_fingerprint` on the handler bound inside a deferred
target. -/
def delegateComputeFingerprint (H : HashFn) (fs : Fs) :
    HandlerRef → PyValue → Option Bytes
  | .file strategy, v => fileComputeFingerprint H strategy fs (pathOf v)
  | .folder, v => folderComputeFingerprint H fs (pathOf v)
  | .virtual, _ => virtualComputeFingerprint

/-- An `Optional[bytes]` as the Python value pickled inside the triple. -/
def optVal : Option Bytes → PyValue
  | none => .vNone
  | some b => .vBytes b

/-- `DeferredTargetHandler.compute_fingerprint`: `None` while unbound,
otherwise the pickled `(resolved_target, resolved_handler,
resolved_fingerprint)` triple. -/
def deferredComputeFingerprint (H : HashFn) (fs : Fs) (t : DeferredTarget) :
    Option Bytes :=
  match t.resolved with
  | none => none
  | some (v, h) =>
    some (pickleDumps (.vTuple [v, .vHandler h,
      optVal (delegateComputeFingerprint H fs h v)]))

/-- Python 3-ary tuple unpacking `a, b, c = v`: tuples of length 3 unpack,
other tuples raise `ValueError`, strings and bytes of length 3 unpack into
their elements, everything else is not iterable (`TypeError`). -/
def unpack3 : PyValue → Except PyErr (PyValue × PyValue × PyValue)
  | .vTuple [a, b, c] => .ok (a, b, c)
  | .vTuple _ => .error .valueError
  | .vStr s =>
    match s.data with
    | [a, b, c] => .ok (.vStr (String.mk [a]), .vStr (String.mk [b]), .vStr (String.mk [c]))
    | _ => .error .valueError
  | .vBytes l =>
    match l with
    | [a, b, c] => .ok (.vInt a, .vInt b, .vInt c)
    | _ => .error .valueError
  | _ => .error .typeError

/-- `DeferredTargetHandler.cook`: start unbound; a truthy previous fingerprint
is deserialized (`_load_previous_fingerprint`, whose failures become `None`),
a truthy deserialized value is unpacked as a triple and re-bound through
`DeferredTarget.resolve` (a non-handler second component would fail the
`TARGET_TYPE` attribute access). -/
def deferredCookBytes (id : String) (b : Bytes) : Except PyErr DeferredTarget :=
  if b = [] then .ok ⟨id, none⟩
  else
    match pickleLoads b with
    | none => .ok ⟨id, none⟩
    | some pv =>
      if !truthy pv then .ok ⟨id, none⟩
      else
        match unpack3 pv with
        | .error e => .error e
        | .ok (a, hv, _) =>
          match hv with
          | .vHandler h => DeferredTarget.resolve ⟨id, none⟩ a h
          | _ => .error .attributeError

/-- `DeferredTargetHandler.cook` proper: `None` previous fingerprint skips the
restore attempt. -/
def deferredCook (id : String) (previous_fingerprint : Option Bytes) :
    Except PyErr DeferredTarget :=
  match previous_fingerprint with
  | none => .ok ⟨id, none⟩
  | some b => deferredCookBytes id b

/-- Python subscript `v[2]`: tuple/string/bytes index (range-checked),
`TypeError` on everything else. -/
def pyIndex2 : PyValue → Except PyErr PyValue
  | .vTuple xs =>
    match xs.get? 2 with
    | some x => .ok x
    | none => .error .indexError
  | .vStr s =>
    match s.data.get? 2 with
    | some c => .ok (.vStr (String.mk [c]))
    | none => .error .indexError
  | .vBytes l =>
    match l.get? 2 with
    | some n => .ok (.vInt n)
    | none => .error .indexError
  | _ => .error .typeError

/-- Python `==` between an `Optional[bytes]` and an arbitrary value: `None`
equals only `None`, a byte string equals only a byte string with the same
content. -/
def pyEqOptBytes (ob : Option Bytes) (pv : PyValue) : Bool :=
  match ob, pv with
  | none, .vNone => true
  | some b, .vBytes b2 => b == b2
  | _, _ => false

/-- Dispatch of `need_rebuild(resolved_target, resolved_previous_fingerprint)`
on the handler bound inside a deferred target, where the previous fingerprint
is whatever Python value sat in the third triple slot.  For the file handler
the `os.stat`/`S_ISDIR` steps run before the fingerprint is sliced, so a
non-bytes slot only raises after them; slicing a str or tuple succeeds but
never equals a bytes digest. -/
def delegateNeedRebuild (H : HashFn) (fs : Fs) :
    HandlerRef → PyValue → PyValue → Except PyErr (Option Bool)
  | .file strategy, v, pv =>
    match fs (pathOf v) with
    | .fsError => .ok (some true)
    | .entry st _ =>
      if sISDIR st.mode then .ok none
      else
        match pv with
        | .vBytes b => .ok (fileNeedRebuild H strategy fs (pathOf v) b)
        | .vStr _ => .ok (some true)
        | .vTuple _ => .ok (some true)
        | _ => .error .typeError
  | .folder, v, pv =>
    .ok (some (!pyEqOptBytes (folderComputeFingerprint H fs (pathOf v)) pv))
  | .virtual, _, _ => .ok (some true)

/-- `DeferredTargetHandler.need_rebuild`: `True` while unbound, `True` when
the stored triple fails to deserialize or is falsy, else delegate to the
bound handler with the third triple slot as previous fingerprint. -/
def deferredNeedRebuild (H : HashFn) (fs : Fs) (t : DeferredTarget)
    (previous_fingerprint : Bytes) : Except PyErr (Option Bool) :=
  match t.resolved with
  | none => .ok (some true)
  | some (v, h) =>
    match pickleLoads previous_fingerprint with
    | none => .ok (some true)
    | some pv =>
      if !truthy pv then .ok (some true)
      else
        match pyIndex2 pv with
        | .error e => .error e
        | .ok third => delegateNeedRebuild H fs h v third

/-! ## Supporting lemmas -/

/-- `encNat` round-trips through `decNat`. -/
theorem decNat_encNat (n : Nat) (r : Bytes) : decNat (encNat n ++ r) = some (n, r) := by
  induction n with
  | zero => rfl
  | succ m ih =>
    have h : encNat (m + 1) ++ r = 1 :: (encNat m ++ r) := by
      simp [encNat, List.replicate_succ]
    rw [h]
    show (decNat (encNat m ++ r)).map (fun p => (p.1 + 1, p.2)) = some (m + 1, r)
    rw [ih]
    rfl

/-- `encBytes` round-trips through `decBytes`. -/
theorem decBytes_encBytes (b : Bytes) (r : Bytes) :
    decBytes (encBytes b ++ r) = some (b, r) := by
  unfold encBytes decBytes
  rw [List.append_assoc, decNat_encNat]
  show (if b.length ≤ (b ++ r).length then
    some ((b ++ r).take b.length, (b ++ r).drop b.length) else none) = some (b, r)
  rw [if_pos (by simp)]
  rw [List.take_left, List.drop_left]

/-- `encStr` round-trips through `decStr`. -/
theorem decStr_encStr (s : String) (r : Bytes) : decStr (encStr s ++ r) = some (s, r) := by
  unfold encStr decStr
  rw [decBytes_encBytes]
  simp only [List.map_map]
  have hmap : s.data.map (Char.ofNat ∘ Char.toNat) = s.data := by
    simp [Function.comp_def, Char.ofNat_toNat]
  rw [hmap]

/-- `encInt` round-trips through `decInt`. -/
theorem decInt_encInt (n : Int) (r : Bytes) : decInt (encInt n ++ r) = some (n, r) := by
  cases n with
  | ofNat m => simp [encInt, decInt, decNat_encNat]
  | negSucc m => simp [encInt, decInt, decNat_encNat]

/-- `encHandler` round-trips through `decHandler`. -/
theorem decHandler_encHandler (h : HandlerRef) (r : Bytes) :
    decHandler (encHandler h ++ r) = some (h, r) := by
  cases h with
  | file strategy => cases strategy <;> rfl
  | folder => rfl
  | virtual => rfl

/-- A value is a scalar (not a tuple): the shapes `encodeScalar` encodes
faithfully. -/
def isScalar : PyValue → Bool
  | .vTuple _ => false
  | _ => true

/-- `encodeScalar` round-trips through `decodeScalar` on scalars. -/
theorem decodeScalar_encodeScalar (v : PyValue) (hv : isScalar v = true) (r : Bytes) :
    decodeScalar (encodeScalar v ++ r) = some (v, r) := by
  cases v with
  | vNone => rfl
  | vInt n => simp [encodeScalar, decodeScalar, decInt_encInt]
  | vStr s => simp [encodeScalar, decodeScalar, decStr_encStr]
  | vBytes b => simp [encodeScalar, decodeScalar, decBytes_encBytes]
  | vPath s => simp [encodeScalar, decodeScalar, decStr_encStr]
  | vHandler h => simp [encodeScalar, decodeScalar, decHandler_encHandler]
  | vTuple xs => simp [isScalar] at hv

/-- Scalar sequences round-trip through `decodeScalars`. -/
theorem decodeScalars_append (xs : List PyValue) (hxs : ∀ v ∈ xs, isScalar v = true)
    (r : Bytes) :
    decodeScalars xs.length ((xs.map encodeScalar).flatten ++ r) = some (xs, r) := by
  induction xs with
  | nil => rfl
  | cons v rest ih =>
    have hv := hxs v (List.mem_cons_self _ _)
    have hrest : ∀ x ∈ rest, isScalar x = true := fun x hx => hxs x (List.mem_cons_of_mem _ hx)
    simp only [List.map_cons, List.flatten_cons, List.length_cons, List.append_assoc]
    rw [decodeScalars, decodeScalar_encodeScalar v hv]
    show ((decodeScalars rest.length ((List.map encodeScalar rest).flatten ++ r)).map
      (fun p => (v :: p.1, p.2))) = some (v :: rest, r)
    rw [ih hrest]
    rfl

/-- `pickle.dumps` of a flat tuple of scalars round-trips through
`pickle.loads`. -/
theorem pickleLoads_dumps_tuple (xs : List PyValue) (hxs : ∀ v ∈ xs, isScalar v = true) :
    pickleLoads (pickleDumps (.vTuple xs)) = some (.vTuple xs) := by
  have h : pickleDumps (.vTuple xs) = 6 :: (encNat xs.length ++ (xs.map encodeScalar).flatten) := rfl
  rw [h]
  show (match decNat (encNat xs.length ++ (xs.map encodeScalar).flatten) with
    | none => none
    | some (n, r2) =>
      match decodeScalars n r2 with
      | none => none
      | some (ys, rest) => if rest = [] then some (PyValue.vTuple ys) else none) = some (.vTuple xs)
  rw [decNat_encNat]
  have h2 := decodeScalars_append xs hxs []
  rw [List.append_nil] at h2
  show (match decodeScalars xs.length (List.map encodeScalar xs).flatten with
    | none => none
    | some (ys, rest) => if rest = [] then some (PyValue.vTuple ys) else none) = some (.vTuple xs)
  rw [h2]
  rfl

/-- `pickle.dumps` never returns the empty byte string. -/
theorem pickleDumps_ne_nil (v : PyValue) : pickleDumps v ≠ [] := by
  cases v <;> simp [pickleDumps, encodeScalar]

/-- Taking the first 32 bytes after a 32-byte digest recovers the digest. -/
theorem take32_digest_append (H : HashFn) (x : Bytes) (z : Bytes) :
    (H.digest x ++ z).take 32 = H.digest x := by
  rw [← H.len32 x]
  exact List.take_left _ _

/-- Dropping the first 32 bytes after a 32-byte digest leaves the tail. -/
theorem drop32_digest_append (H : HashFn) (x : Bytes) (z : Bytes) :
    (H.digest x ++ z).drop 32 = z := by
  rw [← H.len32 x]
  exact List.drop_left _ _

/-- `pyFormatF` maps a brace-free input to itself whenever the fuel covers the
input length. -/
theorem pyFormatF_noBrace (cfg : Config) :
    ∀ (l : List Char) (fuel : Nat), l.length ≤ fuel →
      (∀ c ∈ l, c ≠ '{' ∧ c ≠ '}') → pyFormatF cfg fuel l = .ok l := by
  intro l
  induction l with
  | nil => intro fuel _ _; cases fuel <;> rfl
  | cons c rest ih =>
    intro fuel hlen hc
    cases fuel with
    | zero => simp at hlen
    | succ f =>
      have hc1 : c ≠ '{' := (hc c (List.mem_cons_self _ _)).1
      have hc2 : c ≠ '}' := (hc c (List.mem_cons_self _ _)).2
      have hrest : ∀ x ∈ rest, x ≠ '{' ∧ x ≠ '}' := fun x hx => hc x (List.mem_cons_of_mem _ hx)
      have hlen2 : rest.length ≤ f := by simp at hlen; omega
      rw [pyFormatF.eq_def]
      simp only []
      rw [if_neg hc1, if_neg hc2, ih f hlen2 hrest]
      rfl

/-- `str.format` returns a brace-free string unchanged. -/
theorem pyFormat_noBrace (cfg : Config) (l : List Char)
    (h : ∀ c ∈ l, c ≠ '{' ∧ c ≠ '}') : pyFormat cfg l = .ok l :=
  pyFormatF_noBrace cfg l l.length (Nat.le_refl _) h

/-- A string contains no brace characters (so `str.format` is the identity
on it: it is fully substituted). -/
def noBraces (s : String) : Bool :=
  s.data.all (fun c => c ≠ '{' && c ≠ '}')

/-- `baseResolve` returns a brace-free string unchanged. -/
theorem baseResolve_noBraces (s : String) (cfg : Config) (h : noBraces s = true) :
    baseResolve s cfg = .ok s := by
  have h2 : ∀ c ∈ s.data, c ≠ '{' ∧ c ≠ '}' := by
    intro c hc
    have := (List.all_eq_true.mp h) c hc
    simpa using this
  unfold baseResolve
  rw [pyFormat_noBrace cfg s.data h2]

/-- If a handler list contains two distinct handlers whose suffixes stand in
the ends-with relation (the shorter one non-empty), the registration loop
raises `IsengardConsistencyError`. -/
theorem bundleLoop_error (all : List RegHandler) (h₁ h₂ : RegHandler)
    (h2mem : h₂ ∈ all) (hne : h₁ ≠ h₂) (hs1 : h₁.suffix ≠ "")
    (hends : strEndsWith h₂.suffix h₁.suffix = true) :
    ∀ l : List RegHandler, h₁ ∈ l →
      bundleLoop all l = .error .isengardConsistencyError := by
  intro l
  induction l with
  | nil => intro hmem; simp at hmem
  | cons h rest ih =>
    intro hmem
    rw [bundleLoop]
    by_cases hemp : h.suffix = ""
    · rw [if_pos hemp]
      have hmem2 : h₁ ∈ rest := by
        rcases List.mem_cons.mp hmem with h1 | h1
        · exact absurd (h1 ▸ hemp) hs1
        · exact h1
      exact ih hmem2
    · rw [if_neg hemp]
      cases hfind : all.find? (fun g => strEndsWith g.suffix h.suffix && g ≠ h) with
      | some g => rfl
      | none =>
        rcases List.mem_cons.mp hmem with h1 | h1
        · exfalso
          subst h1
          have hnone := List.find?_eq_none.mp hfind h₂ h2mem
          simp only [Bool.and_eq_true, decide_eq_true_eq, not_and] at hnone
          exact absurd (Ne.symm hne) (hnone hends)
        · rw [ih h1]
          rfl

/-- With no ambiguous suffix pair anywhere in the handler list, the
registration loop succeeds. -/
theorem bundleLoop_ok (all : List RegHandler)
    (hnoamb : ∀ h ∈ all, h.suffix ≠ "" → ∀ g ∈ all, g ≠ h →
      strEndsWith g.suffix h.suffix = false) :
    ∀ l : List RegHandler, (∀ x ∈ l, x ∈ all) → (bundleLoop all l).isOk = true := by
  intro l
  induction l with
  | nil => intro _; rfl
  | cons h rest ih =>
    intro hsub
    have hsub2 : ∀ x ∈ rest, x ∈ all := fun x hx => hsub x (List.mem_cons_of_mem _ hx)
    rw [bundleLoop]
    by_cases hemp : h.suffix = ""
    · rw [if_pos hemp]
      exact ih hsub2
    · rw [if_neg hemp]
      have hfind : all.find? (fun g => strEndsWith g.suffix h.suffix && g ≠ h) = none := by
        rw [List.find?_eq_none]
        intro g hg hp
        simp only [Bool.and_eq_true, decide_eq_true_eq] at hp
        have hfalse := hnoamb h (hsub h (List.mem_cons_self _ _)) hemp g hg hp.2
        rw [hfalse] at hp
        exact absurd hp.1 (by simp)
      rw [hfind]
      have hrest := ih hsub2
      cases hres : bundleLoop all rest with
      | ok m => rfl
      | error e =>
        rw [hres] at hrest
        simp [Except.isOk, Except.toBool] at hrest

/-- `optVal` always yields a scalar (`None` or a byte string). -/
theorem isScalar_optVal (ob : Option Bytes) : isScalar (optVal ob) = true := by
  cases ob <;> rfl

/-- Restoring a deferred binding: cooking with the pickled
`(value, handler, fingerprint)` triple of a scalar, type-correct value
re-binds exactly that value and handler. -/
theorem deferredCook_restore (id : String) (v : PyValue) (hh : HandlerRef)
    (rfp : Option Bytes) (hscal : isScalar v = true)
    (hmatch : typeMatches v hh.targetType = true) :
    deferredCook id (some (pickleDumps (.vTuple [v, .vHandler hh, optVal rfp]))) =
      .ok ⟨id, some (v, hh)⟩ := by
  have hxs : ∀ x ∈ [v, PyValue.vHandler hh, optVal rfp], isScalar x = true := by
    intro x hx
    simp only [List.mem_cons, List.not_mem_nil, or_false] at hx
    rcases hx with rfl | rfl | rfl
    · exact hscal
    · rfl
    · exact isScalar_optVal rfp
  have hloads := pickleLoads_dumps_tuple _ hxs
  have hstep : deferredCook id (some (pickleDumps (.vTuple [v, .vHandler hh, optVal rfp]))) =
      deferredCookBytes id (pickleDumps (.vTuple [v, .vHandler hh, optVal rfp])) := rfl
  rw [hstep]
  unfold deferredCookBytes
  rw [if_neg (pickleDumps_ne_nil _), hloads]
  show (if (!truthy (.vTuple [v, .vHandler hh, optVal rfp])) = true then
      Except.ok (⟨id, none⟩ : DeferredTarget)
    else DeferredTarget.resolve ⟨id, none⟩ v hh) = .ok ⟨id, some (v, hh)⟩
  rw [if_neg (by simp [truthy])]
  unfold DeferredTarget.resolve
  rw [hmatch]
  rfl

/-! ## Concrete fixtures used by witnesses -/

/-- A concrete 32-byte digest function (never the all-zero digest). -/
def constHash : HashFn where
  digest := fun _ => 1 :: List.replicate 31 0
  len32 := by intro b; simp

/-- Stats of a regular file (mode octal `100644`). -/
def fileStats : Stats := ⟨10, 20, 30, 33188, 40, 50⟩

/-- Stats of a directory (mode octal `040000`). -/
def dirStats : Stats := ⟨10, 20, 30, 16384, 40, 50⟩

/-- A tiny filesystem: a regular file at `/f` with content `[7]`, a directory
at `/d`, access errors everywhere else. -/
def exFs : Fs := fun p =>
  if p = "/f" then .entry fileStats [7]
  else if p = "/d" then .entry dirStats []
  else .fsError

/-- An unbound deferred target. -/
def exUnbound : DeferredTarget := ⟨"x?", none⟩

/-- A deferred target bound to the file `/f` under the stat-only file handler. -/
def exBound : DeferredTarget := ⟨"x?", some (.vPath "/f", .file .stat)⟩

/-! ## Claims -/

/-- C1: the claim says `set(identity, fingerprint)` on a freshly opened store
succeeds and `get(identity)` then returns that fingerprint (last-write-wins
upsert keyed by identity).  The code cannot do this: `SQL_CREATE_TARGETS_TABLE`
gives `targets.id` no `UNIQUE` constraint (only `_id` has one), so SQLite
rejects the `ON CONFLICT(id)` clause of `SQL_SET_TARGET` with an
`OperationalError` — on a fresh store every `set` raises instead of storing,
and (independently) the `rule` column is `NOT NULL` without a default yet
never supplied by the insert. -/
theorem C1_set_fingerprint_raises (target : String) (fingerprint : Bytes) :
    set_fingerprint freshDatabase target fingerprint = .error .operationalError ∧
    fetch_previous_fingerprint freshDatabase target = none :=
  ⟨rfl, rfl⟩

/-- C2: the claim says `need_rebuild` always returns a boolean and returns
true whenever certainty is absent (deleted file, unreadable fingerprint).
`FileTargetHandler.need_rebuild` does return `True` when `os.stat` fails
(file deleted) and when the stored fingerprint is structurally off, but when
the path now holds a *directory* (e.g. the file was deleted and replaced by
one) it executes `return None`: `None` is not a boolean and is falsy, so in
that certainty-absent case the claim's "never a non-true value" fails. -/
theorem C2_need_rebuild_dir_returns_none (H : HashFn) (strategy : Strategy)
    (fs : Fs) (cooked : String) (previous_fingerprint : Bytes) :
    (fs cooked = .fsError →
      fileNeedRebuild H strategy fs cooked previous_fingerprint = some true) ∧
    (∀ st content, fs cooked = .entry st content → sISDIR st.mode = true →
      fileNeedRebuild H strategy fs cooked previous_fingerprint = none) := by
  constructor
  · intro h
    unfold fileNeedRebuild
    rw [h]
  · intro st content h hdir
    unfold fileNeedRebuild
    rw [h]
    simp only [hdir, if_true]

/-- C2 witness: the deleted-file case returns `True` and the directory case
returns `None` on the concrete fixture filesystem. -/
theorem C2_need_rebuild_dir_returns_none_witness :
    fileNeedRebuild constHash .stat exFs "/missing" [] = some true ∧
    fileNeedRebuild constHash .stat exFs "/d" [] = none :=
  ⟨(C2_need_rebuild_dir_returns_none constHash .stat exFs "/missing" []).1 rfl,
   (C2_need_rebuild_dir_returns_none constHash .stat exFs "/d" []).2 dirStats []
     rfl (by decide)⟩

/-- C3: the claim says any failing optimistic version read (absent table,
corrupt file, wrong magic) or version mismatch silently resets the store and
is never reported as an error.  The code resets on an absent version table
(`OperationalError` caught) and on a version mismatch, but it diverges on the
other two listed cases: a version table whose rows lack the magic makes
`fetchone()` return `None` and the tuple-unpacking raise an uncaught
`TypeError`, and a corrupt (non-SQLite) file makes the read raise
`sqlite3.DatabaseError`, which the `except OperationalError` clause does not
catch — both propagate as errors instead of resetting. -/
theorem C3_reset_misses_wrong_magic_and_corrupt :
    init_or_reset_db (.stored ⟨true, [(1, 1)], true, []⟩) = .error .typeError ∧
    init_or_reset_db .corrupt = .error .databaseError ∧
    init_or_reset_db (.stored ⟨false, [], false, []⟩) = .ok freshDatabase ∧
    init_or_reset_db .absent = .ok freshDatabase ∧
    init_or_reset_db (.stored ⟨true, [(VERSION_MAGIC_NUMBER, 99)], true,
      [("a", [1])]⟩) = .ok freshDatabase ∧
    (∀ target, fetch_previous_fingerprint freshDatabase target = none) :=
  ⟨by decide, by decide, by decide, by decide, by decide, fun _ => rfl⟩

/-- C6: resolving `\x7bout\x7d/build.log#` with config `out = build` under
workdir `/proj` yields `/proj/build/build.log#`, and resolving
`\x7bmissing\x7d/x#` with the same config raises a Definition error naming
`missing` — exactly as the claim states. -/
theorem C6_resolve_example :
    fileResolve "\x7bout\x7d/build.log#" [("out", "build")] "/proj" =
      .ok "/proj/build/build.log#" ∧
    fileResolve "\x7bmissing\x7d/x#" [("out", "build")] "/proj" =
      .error (.isengardDefinitionError "missing") :=
  ⟨by decide, by decide⟩

/-- C4 counterexample: the claim says a default handler that is not among the
registered handlers raises a *Consistency* error, but
`TargetHandlersBundle.__init__` raises a plain `ValueError` for that case
(the Consistency error is reserved for ambiguous suffixes). -/
theorem C4_default_error_is_valueError :
    bundleInit [⟨0, "#"⟩] (some ⟨1, "@"⟩) = .error .valueError ∧
    PyErr.valueError ≠ PyErr.isengardConsistencyError :=
  ⟨by decide, by decide⟩

/-- C4 (amended): registry construction raises a Consistency error when two
distinct registered handlers have suffixes in the suffix-of relation (e.g.
`.c#` and `c#`), raises a `ValueError` — not a Consistency error — when a
supplied default handler is not among the registered handlers, and succeeds
for unambiguous suffixes with a registered (or absent) default. -/
theorem C4_registry_construction :
    (∀ (hs : List RegHandler) (d : Option RegHandler) (h₁ h₂ : RegHandler),
      (d = none ∨ ∃ dh, d = some dh ∧ dh ∈ hs) →
      h₁ ∈ hs → h₂ ∈ hs → h₁ ≠ h₂ → h₁.suffix ≠ "" →
      strEndsWith h₂.suffix h₁.suffix = true →
      bundleInit hs d = .error .isengardConsistencyError) ∧
    (∀ (hs : List RegHandler) (d : RegHandler), d ∉ hs →
      bundleInit hs (some d) = .error .valueError) ∧
    (∀ (hs : List RegHandler) (d : Option RegHandler),
      (∀ h ∈ hs, h.suffix ≠ "" → ∀ g ∈ hs, g ≠ h →
        strEndsWith g.suffix h.suffix = false) →
      (d = none ∨ ∃ dh, d = some dh ∧ dh ∈ hs) →
      (bundleInit hs d).isOk = true) := by
  refine ⟨?_, ?_, ?_⟩
  · intro hs d h₁ h₂ hd h1m h2m hne hs1 hends
    have hloop := bundleLoop_error hs h₁ h₂ h2m hne hs1 hends hs h1m
    rcases hd with rfl | ⟨dh, rfl, hdm⟩
    · exact hloop
    · unfold bundleInit
      simp only []
      have hcont : hs.contains dh = true := by
        simp [List.contains, List.elem_iff]
        exact hdm
      rw [hcont]
      exact hloop
  · intro hs d hd
    unfold bundleInit
    simp only []
    have hcont : hs.contains d = false := by
      simp [List.contains, List.elem_iff]
      exact hd
    rw [hcont]
    rfl
  · intro hs d hnoamb hd
    have hloop := bundleLoop_ok hs hnoamb hs (fun x hx => hx)
    rcases hd with rfl | ⟨dh, rfl, hdm⟩
    · exact hloop
    · unfold bundleInit
      simp only []
      have hcont : hs.contains dh = true := by
        simp [List.contains, List.elem_iff]
        exact hdm
      rw [hcont]
      exact hloop

/-- C4 witness: the `.c#`/`c#` pair raises the Consistency error, an alien
default raises `ValueError`, and the file/virtual pair with a registered
default constructs successfully. -/
theorem C4_registry_construction_witness :
    bundleInit [⟨0, ".c#"⟩, ⟨1, "c#"⟩] none = .error .isengardConsistencyError ∧
    bundleInit [⟨0, "#"⟩, ⟨1, "@"⟩] (some ⟨2, "/"⟩) = .error .valueError ∧
    (bundleInit [⟨0, "#"⟩, ⟨1, "@"⟩] (some ⟨0, "#"⟩)).isOk = true :=
  ⟨C4_registry_construction.1 [⟨0, ".c#"⟩, ⟨1, "c#"⟩] none ⟨1, "c#"⟩ ⟨0, ".c#"⟩
      (Or.inl rfl) (by simp) (by simp) (by decide) (by decide) (by decide),
   C4_registry_construction.2.1 [⟨0, "#"⟩, ⟨1, "@"⟩] ⟨2, "/"⟩ (by decide),
   C4_registry_construction.2.2 [⟨0, "#"⟩, ⟨1, "@"⟩] (some ⟨0, "#"⟩)
      (by decide) (Or.inr ⟨⟨0, "#"⟩, rfl, by simp⟩)⟩

/-- C7: resolution is idempotent on already-resolved identities — a fully
substituted (brace-free) absolute identity is returned unchanged by the
file and folder resolvers under any configuration and working directory —
and deterministic: equal inputs give equal resolved identities (resolution
is a pure function of target, configuration and workdir). -/
theorem C7_resolution_idempotent :
    (∀ (r : String) (cfg : Config) (workdir : String),
      noBraces r = true → isAbsolute r = true →
      fileResolve r cfg workdir = .ok r ∧ folderResolve r cfg workdir = .ok r) ∧
    (∀ (id : String) (cfg₁ cfg₂ : Config) (w₁ w₂ : String), cfg₁ = cfg₂ → w₁ = w₂ →
      fileResolve id cfg₁ w₁ = fileResolve id cfg₂ w₂ ∧
      folderResolve id cfg₁ w₁ = folderResolve id cfg₂ w₂) := by
  constructor
  · intro r cfg wd hnb habs
    have hbase := baseResolve_noBraces r cfg hnb
    have hne : r ≠ "" := by
      intro h
      subst h
      simp [isAbsolute] at habs
    constructor
    · unfold fileResolve
      rw [hbase]
      show (if r ≠ "" then
          if !isAbsolute r then (pure (posixJoin wd r) : Except PyErr String)
          else pure r
        else pure r) = .ok r
      rw [if_pos hne, habs]
      rfl
    · unfold folderResolve
      rw [hbase]
      show (if r ≠ "" then
          if !isAbsolute r then
            (pure (dropTrailingSlash (posixJoin wd r) ++ "/") : Except PyErr String)
          else pure r
        else pure r) = .ok r
      rw [if_pos hne, habs]
      rfl
  · intro id cfg₁ cfg₂ w₁ w₂ hc hw
    subst hc
    subst hw
    exact ⟨rfl, rfl⟩

/-- C7 witness: the absolute, fully substituted identities `/a/b#` and
`/a/d/` resolve to themselves. -/
theorem C7_resolution_idempotent_witness :
    fileResolve "/a/b#" [("k", "v")] "/w" = .ok "/a/b#" ∧
    folderResolve "/a/d/" [("k", "v")] "/w" = .ok "/a/d/" :=
  ⟨(C7_resolution_idempotent.1 "/a/b#" [("k", "v")] "/w" (by decide) (by decide)).1,
   (C7_resolution_idempotent.1 "/a/d/" [("k", "v")] "/w" (by decide) (by decide)).2⟩

/-- C8: `DeferredTarget.resolve` raises a Run error exactly when the supplied
value is not an instance of the handler's target type or the target is
already bound; an already-bound target with a correctly typed value gets the
already-resolved Run error (and, the embedding returning the new state only
on success, the stored binding is untouched); otherwise the target
transitions from unbound to bound with exactly the supplied pair. -/
theorem C8_deferred_resolve (t : DeferredTarget) (v : PyValue) (h : HandlerRef) :
    ((∃ e, t.resolve v h = .error e) ↔
      (typeMatches v h.targetType = false ∨ t.resolved.isSome = true)) ∧
    (t.resolved.isSome = true → typeMatches v h.targetType = true →
      t.resolve v h = .error (.isengardRunError "Target already resolved !")) ∧
    (typeMatches v h.targetType = true → t.resolved = none →
      t.resolve v h = .ok ⟨t.id, some (v, h)⟩) := by
  by_cases hm : typeMatches v h.targetType = true
  case neg =>
    have hmf : typeMatches v h.targetType = false := by
      revert hm
      cases typeMatches v h.targetType <;> simp
    have hres : t.resolve v h = .error (.isengardRunError
        ("Incorrect type for target, handler expects " ++ pyTypeName h.targetType)) := by
      unfold DeferredTarget.resolve
      rw [hmf]
      rfl
    refine ⟨⟨fun _ => Or.inl hmf, fun _ => ⟨_, hres⟩⟩, ?_, ?_⟩
    · intro _ hm2
      rw [hm2] at hmf
      exact Bool.noConfusion hmf
    · intro hm2 _
      rw [hm2] at hmf
      exact Bool.noConfusion hmf
  case pos =>
    cases hr : t.resolved with
    | some pr =>
      have hres : t.resolve v h = .error (.isengardRunError "Target already resolved !") := by
        unfold DeferredTarget.resolve
        rw [hm, hr]
        rfl
      refine ⟨⟨fun _ => Or.inr rfl, fun _ => ⟨_, hres⟩⟩, ?_, ?_⟩
      · intro _ _
        exact hres
      · intro _ hnone
        exact Option.noConfusion hnone
    | none =>
      have hres : t.resolve v h = .ok ⟨t.id, some (v, h)⟩ := by
        unfold DeferredTarget.resolve
        rw [hm, hr]
        rfl
      refine ⟨⟨?_, ?_⟩, ?_, ?_⟩
      · intro he
        obtain ⟨e, he⟩ := he
        rw [hres] at he
        exact Except.noConfusion he
      · intro hor
        rcases hor with h1 | h1
        · rw [hm] at h1
          exact Bool.noConfusion h1
        · simp at h1
      · intro h1 _
        simp at h1
      · intro _ _
        exact hres

/-- C8 witness: resolving the bound fixture again raises the already-resolved
Run error; resolving the unbound fixture binds the supplied pair. -/
theorem C8_deferred_resolve_witness :
    DeferredTarget.resolve exBound (.vPath "/q") (.file .stat) =
      .error (.isengardRunError "Target already resolved !") ∧
    DeferredTarget.resolve exUnbound (.vPath "/q") (.file .stat) =
      .ok ⟨"x?", some (.vPath "/q", .file .stat)⟩ :=
  ⟨(C8_deferred_resolve exBound (.vPath "/q") (.file .stat)).2.1 rfl rfl,
   (C8_deferred_resolve exUnbound (.vPath "/q") (.file .stat)).2.2 rfl rfl⟩

/-- The file fingerprint under the `stat` strategy on an existing
non-directory entry: stats digest followed by 32 zero bytes. -/
theorem fileComputeFingerprint_stat_eq (H : HashFn) (fs : Fs) (p : String)
    (st : Stats) (content : Bytes) (hnode : fs p = .entry st content)
    (hdir : ¬ sISDIR st.mode = true) :
    fileComputeFingerprint H .stat fs p =
      some (H.digest (packStats st) ++ List.replicate 32 0) := by
  unfold fileComputeFingerprint
  rw [hnode]
  simp [hdir]

/-- The file fingerprint under the `stat+checksum` strategy on an existing
non-directory entry: stats digest followed by the content digest. -/
theorem fileComputeFingerprint_checksum_eq (H : HashFn) (fs : Fs) (p : String)
    (st : Stats) (content : Bytes) (hnode : fs p = .entry st content)
    (hdir : ¬ sISDIR st.mode = true) :
    fileComputeFingerprint H .statChecksum fs p =
      some (H.digest (packStats st) ++ H.digest content) := by
  unfold fileComputeFingerprint
  rw [hnode]
  simp [hdir, take32_digest_append]

/-- `DeferredTargetHandler.need_rebuild` on a bound target whose stored
fingerprint is the pickled triple of a scalar value: it deserializes the
triple and delegates to the bound handler with the third slot. -/
theorem deferredNeedRebuild_triple (H : HashFn) (fs : Fs) (id : String)
    (v : PyValue) (hh : HandlerRef) (rfp : Option Bytes) (hscal : isScalar v = true) :
    deferredNeedRebuild H fs ⟨id, some (v, hh)⟩
      (pickleDumps (.vTuple [v, .vHandler hh, optVal rfp])) =
      delegateNeedRebuild H fs hh v (optVal rfp) := by
  have hxs : ∀ x ∈ [v, PyValue.vHandler hh, optVal rfp], isScalar x = true := by
    intro x hx
    simp only [List.mem_cons, List.not_mem_nil, or_false] at hx
    rcases hx with rfl | rfl | rfl
    · exact hscal
    · rfl
    · exact isScalar_optVal rfp
  have hloads := pickleLoads_dumps_tuple _ hxs
  show (match pickleLoads (pickleDumps (.vTuple [v, .vHandler hh, optVal rfp])) with
    | none => (Except.ok (some true) : Except PyErr (Option Bool))
    | some pv =>
      if (!truthy pv) = true then .ok (some true)
      else
        match pyIndex2 pv with
        | .error e => .error e
        | .ok third => delegateNeedRebuild H fs hh v third) =
    delegateNeedRebuild H fs hh v (optVal rfp)
  rw [hloads]
  rfl

/-- C5: a bound deferred target's fingerprint is the pickled triple of the
bound value, the bound handler, and that handler's fingerprint of the value;
cooking the same identity again with that fingerprint restores exactly the
same binding, and — bound to a File target whose file is unchanged —
`need_rebuild` on the restored target returns `False`. -/
theorem C5_deferred_fingerprint_roundtrip (H : HashFn) (fs : Fs) (id p : String)
    (st : Stats) (content : Bytes) (strategy : Strategy)
    (hnode : fs p = .entry st content) (hnd : ¬ sISDIR st.mode = true) :
    (∀ (v : PyValue) (hh : HandlerRef),
      deferredComputeFingerprint H fs ⟨id, some (v, hh)⟩ =
        some (pickleDumps (.vTuple [v, .vHandler hh,
          optVal (delegateComputeFingerprint H fs hh v)]))) ∧
    deferredCook id (deferredComputeFingerprint H fs ⟨id, some (.vPath p, .file strategy)⟩) =
      .ok ⟨id, some (.vPath p, .file strategy)⟩ ∧
    deferredNeedRebuild H fs ⟨id, some (.vPath p, .file strategy)⟩
      (pickleDumps (.vTuple [.vPath p, .vHandler (.file strategy),
        optVal (fileComputeFingerprint H strategy fs p)])) = .ok (some false) := by
  refine ⟨fun v hh => rfl, ?_, ?_⟩
  · exact deferredCook_restore id (.vPath p) (.file strategy)
      (fileComputeFingerprint H strategy fs p) rfl rfl
  · rw [deferredNeedRebuild_triple H fs id (.vPath p) (.file strategy)
      (fileComputeFingerprint H strategy fs p) rfl]
    cases strategy with
    | stat =>
      rw [fileComputeFingerprint_stat_eq H fs p st content hnode hnd]
      show (match fs p with
        | .fsError => (Except.ok (some true) : Except PyErr (Option Bool))
        | .entry st2 _ =>
          if sISDIR st2.mode then .ok none
          else .ok (fileNeedRebuild H .stat fs p
            (H.digest (packStats st) ++ List.replicate 32 0))) = .ok (some false)
      rw [hnode]
      simp only [hnd, if_false, Bool.false_eq_true]
      have hnr : fileNeedRebuild H .stat fs p
          (H.digest (packStats st) ++ List.replicate 32 0) = some false := by
        unfold fileNeedRebuild
        rw [hnode]
        simp [hnd, take32_digest_append]
      rw [hnr]
    | statChecksum =>
      rw [fileComputeFingerprint_checksum_eq H fs p st content hnode hnd]
      show (match fs p with
        | .fsError => (Except.ok (some true) : Except PyErr (Option Bool))
        | .entry st2 _ =>
          if sISDIR st2.mode then .ok none
          else .ok (fileNeedRebuild H .statChecksum fs p
            (H.digest (packStats st) ++ H.digest content))) = .ok (some false)
      rw [hnode]
      simp only [hnd, if_false, Bool.false_eq_true]
      have hnr : fileNeedRebuild H .statChecksum fs p
          (H.digest (packStats st) ++ H.digest content) = some false := by
        unfold fileNeedRebuild
        rw [hnode]
        simp [hnd, take32_digest_append, drop32_digest_append]
      rw [hnr]

/-- C5 witness: the concrete bound fixture round-trips and reports no rebuild
needed on the unchanged fixture file. -/
theorem C5_deferred_fingerprint_roundtrip_witness :
    deferredComputeFingerprint constHash exFs exBound =
      some (pickleDumps (.vTuple [.vPath "/f", .vHandler (.file .stat),
        optVal (delegateComputeFingerprint constHash exFs (.file .stat) (.vPath "/f"))])) ∧
    deferredCook "x?" (deferredComputeFingerprint constHash exFs exBound) = .ok exBound ∧
    deferredNeedRebuild constHash exFs exBound
      (pickleDumps (.vTuple [.vPath "/f", .vHandler (.file .stat),
        optVal (fileComputeFingerprint constHash .stat exFs "/f")])) = .ok (some false) :=
  ⟨(C5_deferred_fingerprint_roundtrip constHash exFs "x?" "/f" fileStats [7] .stat
      rfl (by decide)).1 (.vPath "/f") (.file .stat),
   (C5_deferred_fingerprint_roundtrip constHash exFs "x?" "/f" fileStats [7] .stat
      rfl (by decide)).2.1,
   (C5_deferred_fingerprint_roundtrip constHash exFs "x?" "/f" fileStats [7] .stat
      rfl (by decide)).2.2⟩

/-- C9 counterexample: the claim quantifies over *every* byte sequence that is
not a valid serialized triple, but a sequence that deserializes to a truthy
non-triple — here a pickled integer `5` — makes `cook` raise a `TypeError`
from the 3-ary tuple unpacking instead of yielding an unbound target. -/
theorem C9_pickled_int_raises :
    deferredCook "x?" (some (pickleDumps (.vInt 5))) = .error .typeError := rfl

/-- C9 (amended): for every byte sequence on which deserialization fails (or
yields a falsy value), cooking a deferred target with it as previous
fingerprint raises no error and yields an unbound target, which then reports
`need_rebuild` true; byte sequences that deserialize to a truthy non-triple
value instead raise an error. -/
theorem C9_undecodable_cook_unbound (id : String) (b : Bytes)
    (hb : pickleLoads b = none ∨ ∃ pv, pickleLoads b = some pv ∧ truthy pv = false) :
    deferredCook id (some b) = .ok ⟨id, none⟩ ∧
    (∀ (H : HashFn) (fs : Fs), deferredNeedRebuild H fs ⟨id, none⟩ b = .ok (some true)) := by
  constructor
  · have hstep : deferredCook id (some b) = deferredCookBytes id b := rfl
    rw [hstep]
    unfold deferredCookBytes
    by_cases hemp : b = []
    · rw [if_pos hemp]
    · rw [if_neg hemp]
      rcases hb with hnone | ⟨pv, hpv, hfal⟩
      · rw [hnone]
      · rw [hpv]
        simp [hfal]
  · intro H fs
    rfl

/-- C9 witness: the garbage byte string `[99]` fails to deserialize, cooks to
an unbound target, and that target needs rebuild. -/
theorem C9_undecodable_cook_unbound_witness :
    pickleLoads [99] = none ∧
    deferredCook "x?" (some [99]) = .ok ⟨"x?", none⟩ ∧
    deferredNeedRebuild constHash exFs ⟨"x?", none⟩ [99] = .ok (some true) :=
  ⟨rfl,
   (C9_undecodable_cook_unbound "x?" [99] (Or.inl rfl)).1,
   (C9_undecodable_cook_unbound "x?" [99] (Or.inl rfl)).2 constHash exFs⟩

/-- C10: whenever `FileTargetHandler.compute_fingerprint` returns a
fingerprint, it is exactly 64 bytes; under the `stat` strategy the last 32
bytes are zero, so — provided the content digest is not the all-zero block,
which sha256 never produces — a `stat` fingerprint is never byte-equal to the
`stat+checksum` fingerprint of the same unchanged file. -/
theorem C10_file_fingerprint_shape (H : HashFn) (strategy : Strategy)
    (fs : Fs) (p : String) :
    (∀ fp, fileComputeFingerprint H strategy fs p = some fp →
      fp.length = 64 ∧ (strategy = .stat → fp.drop 32 = List.replicate 32 0)) ∧
    (∀ st content, fs p = .entry st content → sISDIR st.mode = false →
      H.digest content ≠ List.replicate 32 0 →
      fileComputeFingerprint H .stat fs p ≠
        fileComputeFingerprint H .statChecksum fs p) := by
  constructor
  · intro fp hfp
    cases hnode : fs p with
    | fsError =>
      have hnone : fileComputeFingerprint H strategy fs p = none := by
        unfold fileComputeFingerprint
        rw [hnode]
      rw [hnone] at hfp
      exact Option.noConfusion hfp
    | entry st content =>
      by_cases hdir : sISDIR st.mode = true
      · have hnone : fileComputeFingerprint H strategy fs p = none := by
          unfold fileComputeFingerprint
          rw [hnode]
          simp [hdir]
        rw [hnone] at hfp
        exact Option.noConfusion hfp
      · cases strategy with
        | stat =>
          rw [fileComputeFingerprint_stat_eq H fs p st content hnode hdir] at hfp
          obtain rfl : H.digest (packStats st) ++ List.replicate 32 0 = fp :=
            Option.some.inj hfp
          constructor
          · simp [List.length_append, H.len32]
          · intro _
            exact drop32_digest_append H _ _
        | statChecksum =>
          rw [fileComputeFingerprint_checksum_eq H fs p st content hnode hdir] at hfp
          obtain rfl : H.digest (packStats st) ++ H.digest content = fp :=
            Option.some.inj hfp
          constructor
          · simp [List.length_append, H.len32]
          · intro hcontra
            exact Strategy.noConfusion hcontra
  · intro st content hnode hdir hnz
    have hdir2 : ¬ sISDIR st.mode = true := by rw [hdir]; simp
    rw [fileComputeFingerprint_stat_eq H fs p st content hnode hdir2,
      fileComputeFingerprint_checksum_eq H fs p st content hnode hdir2]
    intro heq
    have h2 := Option.some.inj heq
    have h3 := congrArg (List.drop 32) h2
    rw [drop32_digest_append, drop32_digest_append] at h3
    exact hnz h3.symm

/-- The concrete `stat` fingerprint of the fixture file. -/
def exStatFp : Bytes := constHash.digest (packStats fileStats) ++ List.replicate 32 0

/-- C10 witness: on the fixture file the `stat` fingerprint is 64 bytes with a
zero tail and differs from the `stat+checksum` fingerprint. -/
theorem C10_file_fingerprint_shape_witness :
    fileComputeFingerprint constHash .stat exFs "/f" = some exStatFp ∧
    exStatFp.length = 64 ∧
    exStatFp.drop 32 = List.replicate 32 0 ∧
    fileComputeFingerprint constHash .stat exFs "/f" ≠
      fileComputeFingerprint constHash .statChecksum exFs "/f" :=
  ⟨rfl,
   ((C10_file_fingerprint_shape constHash .stat exFs "/f").1 exStatFp rfl).1,
   ((C10_file_fingerprint_shape constHash .stat exFs "/f").1 exStatFp rfl).2 rfl,
   (C10_file_fingerprint_shape constHash .stat exFs "/f").2 fileStats [7]
     rfl (by decide) (by decide)⟩

end Isengard
